import Mathlib

/-!
Shallow embedding of the sigrok DCC protocol decoder (`dcc/pd.py`).

The decoder is a three-stage pipeline: bit classification from edge
timings, a preamble/byte framing state machine (`handle_preamble`,
`handle_data`), and a telegram parser (`handle_telegram`) dispatching to
command decoders (`handle_single_command_byte`,
`handle_two_command_byte`).  Sample positions and the annotation sink are
modelled by recording, for each call of `handle_telegram`, which
annotations it emits and which state assignments it performs; the
`put`-span arguments carry no decode information and are dropped.
Python integers are unbounded, so Python's bitwise operators are
modelled over `ℤ` where a complement occurs.
-/

/-- Python's `~x` on unbounded integers: `-x - 1`. -/
def pyNot (x : ℤ) : ℤ := -x - 1

/-- Python's `x << n` on unbounded integers. -/
def pyShl (x : ℤ) (n : ℕ) : ℤ := x * 2 ^ n

/-- Python's bitwise `&` on unbounded (two's-complement) integers.
`m ^^^ (m &&& n)` clears in `m` every bit set in `n`, i.e. `m AND NOT n`. -/
def pyAnd : ℤ → ℤ → ℤ
  | Int.ofNat m, Int.ofNat n => Int.ofNat (m &&& n)
  | Int.ofNat m, Int.negSucc n => Int.ofNat (m ^^^ (m &&& n))
  | Int.negSucc m, Int.ofNat n => Int.ofNat (n ^^^ (n &&& m))
  | Int.negSucc m, Int.negSucc n => Int.negSucc (m ||| n)

/-- Python's bitwise `|` on unbounded (two's-complement) integers. -/
def pyOr : ℤ → ℤ → ℤ
  | Int.ofNat m, Int.ofNat n => Int.ofNat (m ||| n)
  | Int.ofNat m, Int.negSucc n => Int.negSucc (n ^^^ (n &&& m))
  | Int.negSucc m, Int.ofNat n => Int.negSucc (m ^^^ (m &&& n))
  | Int.negSucc m, Int.negSucc n => Int.negSucc (m &&& n)

/-- Decoder state tag: the string-valued `self.state` of the source,
which only ever holds `'FIND_PREAMBLE'` or `'DATA'`. -/
inductive St
  | findPreamble
  | data
deriving DecidableEq

/-- Row-2 ("type") annotation emitted by `handle_telegram`. -/
inductive TypeAnn
  | idle
  | loco
  | func
  | unknown
  | wrongChecksum (computed received : Nat)
  | undefinedSize
deriving DecidableEq

/-- Row-4 ("function") annotation emitted by the command decoders and by
the accessory/analog branches of `handle_telegram`. -/
inductive FuncAnn
  | speedDir (speed dir : Nat)
  | funcs (fout : String)
  | accessoryMod (br ind : Nat) (act : String)
  | improvedFunc (br func : Nat)
  | analog (cmdType cmdValue : Nat)
  | notSupported
  | undefinedCmd
deriving DecidableEq

/-- Result of `handle_single_command_byte` / `handle_two_command_byte`:
the row-4 annotation put, and the assignment to `self.state` if any. -/
structure CmdResult where
  funcAnn : FuncAnn
  setState : Option St
deriving DecidableEq

/-- `fout` string built by the function-group-1 branch of
`handle_single_command_byte` (`databyte & 0xE0 == 0x80`). -/
def fg1 (b : Nat) : String :=
  (if b &&& 0x10 = 0x10 then "FL/" else "")
    ++ (if b &&& 0x01 = 0x01 then "F1/" else "")
    ++ (if b &&& 0x02 = 0x02 then "F2/" else "")
    ++ (if b &&& 0x03 = 0x03 then "F3/" else "")
    ++ (if b &&& 0x04 = 0x04 then "F4/" else "")

/-- `fout` string built by the function-group-2 branch
(`databyte & 0xF0 == 0xB0`). -/
def fg2 (b : Nat) : String :=
  (if b &&& 0x01 = 0x01 then "F5/" else "")
    ++ (if b &&& 0x02 = 0x02 then "F6/" else "")
    ++ (if b &&& 0x03 = 0x03 then "F7/" else "")
    ++ (if b &&& 0x04 = 0x04 then "F8/" else "")

/-- `fout` string built by the function-group-3 branch
(`databyte & 0xF0 == 0xA0`). -/
def fg3 (b : Nat) : String :=
  (if b &&& 0x01 = 0x01 then "F9/" else "")
    ++ (if b &&& 0x02 = 0x02 then "F10/" else "")
    ++ (if b &&& 0x03 = 0x03 then "F11/" else "")
    ++ (if b &&& 0x04 = 0x04 then "F12/" else "")

/-- `fout` string built by the `cmdbyte1 == 0xDE` branch of
`handle_two_command_byte` (F13 to F20).  The F16 test compares
`cmdbyte2 & 0x08` against `0x04`, exactly as in the source. -/
def f13to20 (b : Nat) : String :=
  (if b &&& 0x01 = 0x01 then "F13/" else "")
    ++ (if b &&& 0x02 = 0x02 then "F14/" else "")
    ++ (if b &&& 0x04 = 0x04 then "F15/" else "")
    ++ (if b &&& 0x08 = 0x04 then "F16/" else "")
    ++ (if b &&& 0x10 = 0x10 then "F17/" else "")
    ++ (if b &&& 0x20 = 0x20 then "F18/" else "")
    ++ (if b &&& 0x40 = 0x40 then "F19/" else "")
    ++ (if b &&& 0x80 = 0x80 then "F20/" else "")

/-- `fout` string built by the `cmdbyte1 == 0xDF` branch of
`handle_two_command_byte` (F21 to F28).  The F24 test compares
`cmdbyte2 & 0x08` against `0x04`, exactly as in the source. -/
def f21to28 (b : Nat) : String :=
  (if b &&& 0x01 = 0x01 then "F21/" else "")
    ++ (if b &&& 0x02 = 0x02 then "F22/" else "")
    ++ (if b &&& 0x04 = 0x04 then "F23/" else "")
    ++ (if b &&& 0x08 = 0x04 then "F24/" else "")
    ++ (if b &&& 0x10 = 0x10 then "F25/" else "")
    ++ (if b &&& 0x20 = 0x20 then "F26/" else "")
    ++ (if b &&& 0x40 = 0x40 then "F27/" else "")
    ++ (if b &&& 0x80 = 0x80 then "F28/" else "")

/-- `Decoder.handle_single_command_byte`. -/
def handle_single_command_byte (databyte : Nat) : CmdResult :=
  if databyte &&& 0xC0 = 0x40 then
    { funcAnn := FuncAnn.speedDir (databyte &&& 0x1F) ((databyte &&& 0x20) >>> 5),
      setState := none }
  else if databyte &&& 0xE0 = 0x80 then
    { funcAnn := FuncAnn.funcs (fg1 databyte), setState := none }
  else if databyte &&& 0xF0 = 0xB0 then
    { funcAnn := FuncAnn.funcs (fg2 databyte), setState := none }
  else if databyte &&& 0xF0 = 0xA0 then
    { funcAnn := FuncAnn.funcs (fg3 databyte), setState := none }
  else
    { funcAnn := FuncAnn.undefinedCmd, setState := some St.findPreamble }

/-- `Decoder.handle_two_command_byte`.  In the 128-speed-step branch the
source reads `speed = cmdbyte2 & 0x7F - 1`; Python's `-` binds tighter
than `&`, so this is `cmdbyte2 & (0x7F - 1)`, i.e. `cmdbyte2 & 0x7E`. -/
def handle_two_command_byte (cmdbyte1 cmdbyte2 : Nat) : CmdResult :=
  if cmdbyte1 &&& 0xE0 = 0x20 then
    if cmdbyte1 &&& 0x1F = 0x1F then
      { funcAnn := FuncAnn.speedDir (cmdbyte2 &&& (0x7F - 1)) ((cmdbyte2 &&& 0x80) >>> 7),
        setState := none }
    else
      { funcAnn := FuncAnn.notSupported, setState := none }
  else if cmdbyte1 = 0xDE then
    { funcAnn := FuncAnn.funcs (f13to20 cmdbyte2), setState := none }
  else if cmdbyte1 = 0xDF then
    { funcAnn := FuncAnn.funcs (f21to28 cmdbyte2), setState := none }
  else
    { funcAnn := FuncAnn.undefinedCmd, setState := some St.findPreamble }

/-- The accessory / function-decoder address expression of
`handle_telegram`: `((data[0] & 0x3F) | (~(data[1] | 0x8F)) << 1) & 0xFF`,
with Python's unbounded-integer bitwise semantics. -/
def accessoryAdr (a b : Nat) : ℤ :=
  pyAnd (pyOr (pyAnd (a : ℤ) 0x3F) (pyShl (pyNot (pyOr (b : ℤ) 0x8F)) 1)) 0xFF

/-- Observable effect of one call of `Decoder.handle_telegram`: the
row-2/3/4 annotations put (type, address, function) and the assignments
to `self.state` and `self.preamble_count`, if any.  `handle_telegram`
never modifies `self.data`. -/
structure TelegramResult where
  typeAnn : Option TypeAnn
  adrAnn : Option ℤ
  funcAnn : Option FuncAnn
  setState : Option St
  setPreambleCount : Option Nat
deriving DecidableEq

/-- The all-`none` `TelegramResult`: a call that emits nothing and
assigns nothing. -/
def noEffect : TelegramResult := ⟨none, none, none, none, none⟩

/-- `Decoder.handle_telegram`.  The source dispatches on
`datalen = len(self.data)` with branches for 2, 3, 4, 5 and `> 5`;
lengths 0 and 1 fall through every branch and do nothing. -/
def handleTelegram : List Nat → TelegramResult
  | [d0, d1] =>
    if d0 = 0xFF ∧ d1 = 0 then
      ⟨some TypeAnn.idle, none, none, some St.findPreamble, none⟩
    else noEffect
  | [d0, d1, d2] =>
    if d0 ^^^ d1 = d2 then
      if d0 &&& 0x80 = 0x00 then
        let c := handle_single_command_byte d1
        ⟨some TypeAnn.loco, some ((d0 &&& 0x7F : Nat) : ℤ), some c.funcAnn, c.setState, none⟩
      else if d0 &&& 0xC0 = 0x80 ∧ d1 &&& 0x80 = 0x80 then
        let br := (d1 &&& 0x06) >>> 1
        let ind := d1 &&& 0x01
        let act := if (d1 &&& 0x08) >>> 3 = 1 then "on" else "off"
        ⟨some TypeAnn.func, some (accessoryAdr d0 d1),
          some (FuncAnn.accessoryMod br ind act), none, none⟩
      else
        ⟨some TypeAnn.unknown, none, none, none, none⟩
    else if d2 = 0xFF then
      ⟨none, none, none, some St.findPreamble, some 8⟩
    else noEffect
  | [d0, d1, d2, d3] =>
    if d0 ^^^ d1 ^^^ d2 = d3 then
      if d0 &&& 0xC0 = 0xC0 then
        let c := handle_single_command_byte d2
        ⟨some TypeAnn.loco, some ((((d0 &&& 0x3F) <<< 8) + d1 : Nat) : ℤ),
          some c.funcAnn, c.setState, none⟩
      else if d1 &&& 0xD0 = 0xC0 ∨ d1 &&& 0xD0 = 0x20 then
        let c := handle_two_command_byte d1 d2
        ⟨some TypeAnn.loco, some ((d0 &&& 0x3F : Nat) : ℤ), some c.funcAnn, c.setState, none⟩
      else if d0 &&& 0xC0 = 0x80 ∧ d1 &&& 0x89 = 0x01 then
        let br := (d1 &&& 0x06) >>> 1
        ⟨some TypeAnn.func, some (accessoryAdr d0 d1),
          some (FuncAnn.improvedFunc br d2), none, none⟩
      else if d0 &&& 0xE0 = 0x20 then
        ⟨some TypeAnn.func, some ((d0 &&& 0x1F : Nat) : ℤ),
          some (FuncAnn.analog d1 d2), none, none⟩
      else
        ⟨some TypeAnn.unknown, none, none, none, none⟩
    else if d3 = 0xFF then
      ⟨none, none, none, some St.findPreamble, some 8⟩
    else noEffect
  | [d0, d1, d2, d3, d4] =>
    if d0 ^^^ d1 ^^^ d2 ^^^ d3 = d4 then
      if d0 &&& 0xC0 = 0xC0 then
        let c := handle_two_command_byte d2 d3
        ⟨some TypeAnn.loco, some ((((d0 &&& 0x3F) <<< 8) + d1 : Nat) : ℤ),
          some c.funcAnn, c.setState, none⟩
      else
        ⟨some TypeAnn.unknown, none, none, none, none⟩
    else if d4 = 0xFF then
      ⟨none, none, none, some St.findPreamble, some 8⟩
    else
      ⟨some (TypeAnn.wrongChecksum (d0 ^^^ d1 ^^^ d2 ^^^ d3) d4), none, none,
        some St.findPreamble, none⟩
  | _ :: _ :: _ :: _ :: _ :: _ :: _ =>
    ⟨some TypeAnn.undefinedSize, none, none, some St.findPreamble, none⟩
  | _ => noEffect

/-- Mutable fields of the `Decoder` relevant to framing, plus a log of
`handle_telegram` effects (`out`) standing for the annotation sink.
Sample indices (`preamble_start`, `data_start`, ...) only feed
annotation spans and are dropped; `last_bit` is written by
`handle_getting_bit` but never read on a path that matters. -/
structure DecState where
  state : St
  preamble_count : Nat
  data_bit_count : Nat
  data : List Nat
  databyte : Nat
  out : List TelegramResult
deriving DecidableEq

/-- Applies the state/preamble assignments of one `handle_telegram` call
to the decoder state and logs the call's effects. -/
def applyTelegram (s : DecState) : DecState :=
  let r := handleTelegram s.data
  let s1 :=
    match r.setPreambleCount with
    | some n => { s with preamble_count := n }
    | none => s
  let s2 :=
    match r.setState with
    | some st => { s1 with state := st }
    | none => s1
  { s2 with out := s2.out ++ [r] }

/-- One call of `Decoder.handle_preamble`, with the bit classification
outcome of `handle_getting_bit` given as input: `some 0`, `some 1`, or
`none` for a duration in neither window.  On `none`,
`handle_getting_bit` assigns `self.state = 'FIND_PREAMBLE'` and then
returns `0`, and `handle_preamble` keeps running with that `0`. -/
def stepPreamble (s : DecState) (c : Option Nat) : DecState :=
  let s1 := if c = none then { s with state := St.findPreamble } else s
  let bit := c.getD 0
  if bit = 1 then
    { s1 with preamble_count := s1.preamble_count + 1 }
  else if s1.preamble_count > 15 then
    { s1 with preamble_count := 0, data_bit_count := 1, data := [],
              databyte := 0, state := St.data }
  else
    { s1 with preamble_count := 0, state := St.findPreamble }

/-- One call of `Decoder.handle_data`, with the classification outcome
given as for `stepPreamble`.  The source's `if bit == None` guard never
fires because `handle_getting_bit` returns `0` for an invalid bit (it
only sets `self.last_bit = None`), so on `none` the function continues
with `bit = 0` after the state was already forced to `FIND_PREAMBLE`. -/
def stepData (s : DecState) (c : Option Nat) : DecState :=
  let s1 := if c = none then { s with state := St.findPreamble } else s
  let bit := c.getD 0
  if s1.data_bit_count = 0 ∧ bit ≠ 0 then
    { s1 with state := St.findPreamble }
  else
    let s2 :=
      if s1.data_bit_count = 0 then
        { s1 with data_bit_count := 1 }
      else
        { s1 with databyte := (s1.databyte <<< 1) ||| bit,
                  data_bit_count := s1.data_bit_count + 1 }
    if s2.data_bit_count > 8 then
      applyTelegram
        { s2 with data_bit_count := 0, data := s2.data ++ [s2.databyte], databyte := 0 }
    else s2

/-- One iteration of the main loop of `Decoder.decode`. -/
def step (s : DecState) (c : Option Nat) : DecState :=
  match s.state with
  | St.findPreamble => stepPreamble s c
  | St.data => stepData s c

/-- Runs the main loop over a list of classified bits. -/
def runBits (s : DecState) (cs : List (Option Nat)) : DecState :=
  cs.foldl step s

/-- Decoder state as initialized at the top of `Decoder.decode`:
`state = 'FIND_PREAMBLE'`, `preamble_count = 0`, `data_bit_count = 0`,
`data = [0]`. -/
def initState : DecState :=
  ⟨St.findPreamble, 0, 0, [0], 0, []⟩

/-- The bit classification of `handle_getting_bit` from a measured full
bit duration in samples: Python's `x in range(lo, hi)` is
`lo ≤ x < hi`.  `none` models the invalid outcome. -/
def classifyBit (zeroMin zeroMax oneMin oneMax dur : Nat) : Option Nat :=
  if zeroMin ≤ dur ∧ dur < zeroMax then some 0
  else if oneMin ≤ dur ∧ dur < oneMax then some 1
  else none

/-- Python's `int()` applied to a real value: truncation toward zero.
The float arithmetic of the source is modelled by exact rationals. -/
def pyTrunc (q : ℚ) : ℤ :=
  if 0 ≤ q then ⌊q⌋ else ⌈q⌉

/-- The five timing thresholds computed at the top of `Decoder.decode`
(in samples). -/
structure Thresholds where
  jitter : ℤ
  oneMin : ℤ
  oneMax : ℤ
  zeroMin : ℤ
  zeroMax : ℤ
deriving DecidableEq

/-- Threshold computation of `Decoder.decode`:
`int(float(opt[...]) * 1e-6 * self.samplerate)` for each option. -/
def mkThresholds (jitter oneMin oneMax zeroMin zeroMax samplerate : ℚ) : Thresholds :=
  ⟨pyTrunc (jitter * (1 / 1000000) * samplerate),
   pyTrunc (oneMin * (1 / 1000000) * samplerate),
   pyTrunc (oneMax * (1 / 1000000) * samplerate),
   pyTrunc (zeroMin * (1 / 1000000) * samplerate),
   pyTrunc (zeroMax * (1 / 1000000) * samplerate)⟩

/-- A `handle_telegram` call "interprets" / accepts the telegram when it
emits one of the telegram-type annotations `LOCO`, `FUNC` or `UNKNOWN`
(the structure-decoding outcomes, as opposed to no annotation, the
checksum diagnostic, or the oversize diagnostic). -/
def acceptsTelegram (d : List Nat) : Bool :=
  match (handleTelegram d).typeAnn with
  | some TypeAnn.loco => true
  | some TypeAnn.func => true
  | some TypeAnn.unknown => true
  | _ => false

/-- XOR of all bytes except the last, as the spec words the checksum. -/
def xorChecksum (d : List Nat) : Nat :=
  d.dropLast.foldl (fun x y => x ^^^ y) 0

/-- Modelled from the spec's words for the claimed address formula:
`((bytes[0] & 0x3F) | ((~bytes[1] & 0x70) << 1)) & 0xFF`, to be compared
with `accessoryAdr` from the source. -/
def adrClaimFormula (a b : Nat) : ℤ :=
  pyAnd (pyOr (pyAnd (a : ℤ) 0x3F) (pyShl (pyAnd (pyNot (b : ℤ)) 0x70) 1)) 0xFF

/-- C2 counterexample: the 3-byte telegram `[0x03, 0x4A, 0x49]` has a
valid checksum and is accepted (decoded as `LOCO`), yet `handle_telegram`
performs no state assignment: the machine stays in `Data` and keeps
accumulating bytes instead of returning to `FindPreamble`. -/
theorem accepted_telegram_no_reset :
    (handleTelegram [0x03, 0x4A, 0x49]).typeAnn = some TypeAnn.loco
      ∧ (handleTelegram [0x03, 0x4A, 0x49]).setState = none := by
  decide

/-- C3 counterexample: a run of exactly 16 consecutive `1` bits followed
by a `0` is accepted (`preamble_count = 16 > 15`) and the machine
transitions to `Data`, contrary to the claim that 16 ones are rejected
and at least 17 are required. -/
theorem preamble_16_ones_counterexample :
    (runBits initState (List.replicate 16 (some 1) ++ [some 0])).state = St.data := by
  decide

/-- C3 amended: a run of exactly 15 ones followed by a `0` is rejected
(count resets, machine stays in `FindPreamble`), while a run of 16 ones
followed by a `0` is accepted: the machine transitions to `Data` with a
fresh byte buffer and the terminating `0` consumed as the start bit
(`data_bit_count = 1`). -/
theorem preamble_accept_threshold :
    (runBits initState (List.replicate 15 (some 1) ++ [some 0])).state = St.findPreamble
      ∧ (runBits initState (List.replicate 15 (some 1) ++ [some 0])).preamble_count = 0
      ∧ runBits initState (List.replicate 16 (some 1) ++ [some 0]) =
          ⟨St.data, 0, 1, [], 0, []⟩ := by
  decide

/-- C4: evaluation at the failing input.  With thresholds
`zero ∈ [190, 250)`, `one ∈ [100, 130)`, a 150-sample bit cell is
classified invalid (`none`).  In `Data` with 7 payload bits accumulated
(`data_bit_count = 8`, `databyte = 0x7F`), the invalid bit is processed
as `0`: it is shifted into the byte (`0x7F → 0xFE`), the byte is
appended and `handle_telegram` is invoked (one entry in `out`).  In
`Data` with `data_bit_count = 0`, the invalid bit is consumed as a start
bit (`data_bit_count` becomes 1).  The buffer is not discarded in either
case; only the state is forced to `FindPreamble`. -/
theorem invalid_bit_processed_as_zero :
    classifyBit 190 250 100 130 150 = none
      ∧ step ⟨St.data, 0, 8, [], 0x7F, []⟩ (classifyBit 190 250 100 130 150) =
          ⟨St.findPreamble, 0, 0, [0xFE], 0, [noEffect]⟩
      ∧ step ⟨St.data, 0, 0, [], 0, []⟩ (classifyBit 190 250 100 130 150) =
          ⟨St.findPreamble, 0, 1, [], 0, []⟩ := by
  decide

/-- C5: evaluation at the failing input `(cmdbyte1, cmdbyte2) =
(0x3F, 0x02)`.  The source computes `speed = cmdbyte2 & 0x7F - 1 =
cmdbyte2 & 0x7E = 2`, while the claimed formula
`(cmdbyte2 & 0x7F) - 1` gives 1. -/
theorem speed128_masks_low_bit :
    (handle_two_command_byte 0x3F 0x02).funcAnn = FuncAnn.speedDir 2 0
      ∧ (0x02 &&& 0x7F) - 1 ≠ 2 := by
  decide

/-- C6: evaluation at the failing inputs.  For group-1 byte `0x83`
(bits 0 and 1 set, bits 2-4 clear) the decoder reports `F3` although no
dedicated F3 bit is set (`F3` is gated by `byte & 0x03 == 0x03`).  For
the F13-F20 command with `cmdbyte2 = 0xFF` (all gate bits set) `F16` is
missing from the output, because its test `cmdbyte2 & 0x08 == 0x04` can
never hold. -/
theorem function_gate_bits_eval :
    (handle_single_command_byte 0x83).funcAnn = FuncAnn.funcs "F1/F2/F3/"
      ∧ (handle_two_command_byte 0xDE 0xFF).funcAnn =
          FuncAnn.funcs "F13/F14/F15/F17/F18/F19/F20/" := by
  decide

/-- C8 counterexample: `[0x03, 0x4A, 0x49]` does not decode with
direction 1: bit 5 of `0x4A` is clear, so the decoded direction is 0. -/
theorem scenario1_direction_counterexample :
    (handleTelegram [0x03, 0x4A, 0x49]).funcAnn ≠ some (FuncAnn.speedDir 10 1) := by
  decide

/-- C8 amended: `[0x03, 0x4A, 0x49]` (valid checksum `0x03 ^ 0x4A =
0x49`) decodes as a short-address locomotive telegram to address 3 with
28-step speed 10 and direction 0. -/
theorem scenario1_eval :
    handleTelegram [0x03, 0x4A, 0x49] =
      ⟨some TypeAnn.loco, some 3, some (FuncAnn.speedDir 10 0), none, none⟩ := by
  decide

/-- C1: for every byte sequence of length 3 to 5 handed to
`handle_telegram` after a byte append, the parser interprets the
telegram (emits one of the telegram-type annotations `LOCO`/`FUNC`/
`UNKNOWN`) if and only if the XOR of all bytes except the last equals
the last byte. -/
theorem telegram_accept_iff_checksum (d : List Nat) (h3 : 3 ≤ d.length)
    (h5 : d.length ≤ 5) :
    acceptsTelegram d = true ↔ xorChecksum d = d.getLastD 0 := by
  rcases d with _ | ⟨a, _ | ⟨b, _ | ⟨c, _ | ⟨e, _ | ⟨f, _ | ⟨g, t⟩⟩⟩⟩⟩⟩
  · simp at h3
  · simp at h3
  · simp at h3
  · simp only [acceptsTelegram, handleTelegram, xorChecksum, List.dropLast,
      List.foldl, List.getLastD]
    split_ifs <;> simp_all [noEffect]
  · simp only [acceptsTelegram, handleTelegram, xorChecksum, List.dropLast,
      List.foldl, List.getLastD]
    split_ifs <;> simp_all [noEffect]
  · simp only [acceptsTelegram, handleTelegram, xorChecksum, List.dropLast,
      List.foldl, List.getLastD]
    split_ifs <;> simp_all [noEffect]
  · simp at h5

/-- C1 witness: the checksum criterion instantiated at the valid
telegram `[0x03, 0x4A, 0x49]`. -/
theorem telegram_accept_iff_checksum_witness :
    acceptsTelegram [0x03, 0x4A, 0x49] = true ↔
      xorChecksum [0x03, 0x4A, 0x49] = [0x03, 0x4A, 0x49].getLastD 0 :=
  telegram_accept_iff_checksum [0x03, 0x4A, 0x49] (by decide) (by decide)

/-- C7: for every 5-byte sequence with invalid checksum, if the fifth
byte is `0xFF` the parser resynchronizes: no annotation is emitted, the
preamble count is forced to 8 and the state to `FindPreamble`;
otherwise a `WRONG CHECKSUM` annotation reporting the computed and the
received XOR is emitted and the state is forced to `FindPreamble`. -/
theorem length5_checksum_failure (a b c d e : Nat)
    (h : a ^^^ b ^^^ c ^^^ d ≠ e) :
    (e = 0xFF →
        handleTelegram [a, b, c, d, e] =
          ⟨none, none, none, some St.findPreamble, some 8⟩)
      ∧ (e ≠ 0xFF →
        handleTelegram [a, b, c, d, e] =
          ⟨some (TypeAnn.wrongChecksum (a ^^^ b ^^^ c ^^^ d) e), none, none,
            some St.findPreamble, none⟩) := by
  constructor
  · intro he
    subst he
    simp [handleTelegram, h]
  · intro he
    simp [handleTelegram, h, he]

/-- C7 witness: both branches instantiated; `[1,0,0,0,0xFF]` yields the
resynchronization effect, `[1,0,0,0,3]` yields the checksum diagnostic
(computed 1, received 3). -/
theorem length5_checksum_failure_witness :
    handleTelegram [1, 0, 0, 0, 0xFF] =
        ⟨none, none, none, some St.findPreamble, some 8⟩
      ∧ handleTelegram [1, 0, 0, 0, 3] =
        ⟨some (TypeAnn.wrongChecksum 1 3), none, none, some St.findPreamble, none⟩ :=
  ⟨(length5_checksum_failure 1 0 0 0 0xFF (by decide)).1 rfl,
   (length5_checksum_failure 1 0 0 0 3 (by decide)).2 (by decide)⟩

/-- `handle_single_command_byte` either performs no state assignment or
reports `UNDEFINED CMD` (and then resets to `FIND_PREAMBLE`). -/
lemma single_cmd_state_cases (b : Nat) :
    (handle_single_command_byte b).setState = none ∨
      (handle_single_command_byte b).funcAnn = FuncAnn.undefinedCmd := by
  unfold handle_single_command_byte
  split_ifs <;> simp

/-- `handle_two_command_byte` either performs no state assignment or
reports `UNDEFINED CMD` (and then resets to `FIND_PREAMBLE`). -/
lemma two_cmd_state_cases (b c : Nat) :
    (handle_two_command_byte b c).setState = none ∨
      (handle_two_command_byte b c).funcAnn = FuncAnn.undefinedCmd := by
  unfold handle_two_command_byte
  split_ifs <;> simp

/-- C2 amended: `handle_telegram` forces the state back to
`FIND_PREAMBLE` for the length-2 idle telegram, for a length-5 checksum
failure whose last byte is not `0xFF`, and for any accumulation longer
than 5 bytes; but for a telegram of length 3-5 with a valid checksum it
performs no state assignment at all (the machine remains in `Data` and
keeps accumulating) unless the dispatched command byte is undefined.
It never clears the byte buffer; the buffer is cleared only when the
next preamble is accepted. -/
theorem telegram_state_after_parse (d : List Nat) :
    (d = [0xFF, 0x00] → (handleTelegram d).setState = some St.findPreamble)
      ∧ (d.length = 5 → xorChecksum d ≠ d.getLastD 0 → d.getLastD 0 ≠ 0xFF →
          (handleTelegram d).setState = some St.findPreamble)
      ∧ (5 < d.length → (handleTelegram d).setState = some St.findPreamble)
      ∧ (3 ≤ d.length → d.length ≤ 5 → xorChecksum d = d.getLastD 0 →
          (handleTelegram d).setState = none ∨
            (handleTelegram d).funcAnn = some FuncAnn.undefinedCmd) := by
  refine ⟨?_, ?_, ?_, ?_⟩
  · intro h
    subst h
    decide
  · intro hlen hcs hlast
    rcases d with _ | ⟨a, _ | ⟨b, _ | ⟨c, _ | ⟨e, _ | ⟨f, _ | ⟨g, t⟩⟩⟩⟩⟩⟩ <;>
      simp_all [handleTelegram, xorChecksum]
  · intro hlen
    rcases d with _ | ⟨a, _ | ⟨b, _ | ⟨c, _ | ⟨e, _ | ⟨f, _ | ⟨g, t⟩⟩⟩⟩⟩⟩ <;>
      simp_all [handleTelegram]
  · intro h3 h5 hcs
    rcases d with _ | ⟨a, _ | ⟨b, _ | ⟨c, _ | ⟨e, _ | ⟨f, _ | ⟨g, t⟩⟩⟩⟩⟩⟩
    · simp at h3
    · simp at h3
    · simp at h3
    · simp only [xorChecksum, List.dropLast, List.foldl, List.getLastD] at hcs
      simp only [handleTelegram]
      rw [if_pos (by simpa using hcs)]
      split_ifs with h1 h2
      · rcases single_cmd_state_cases b with h | h <;> simp [h]
      · exact Or.inl rfl
      · exact Or.inl rfl
      · exact Or.inl rfl
    · simp only [xorChecksum, List.dropLast, List.foldl, List.getLastD] at hcs
      simp only [handleTelegram]
      rw [if_pos (by simpa using hcs)]
      split_ifs with h1 h2 h3' h4
      · rcases single_cmd_state_cases c with h | h <;> simp [h]
      · rcases two_cmd_state_cases b c with h | h <;> simp [h]
      · exact Or.inl rfl
      · exact Or.inl rfl
      · exact Or.inl rfl
    · simp only [xorChecksum, List.dropLast, List.foldl, List.getLastD] at hcs
      simp only [handleTelegram]
      rw [if_pos (by simpa using hcs)]
      split_ifs with h1
      · rcases two_cmd_state_cases c e with h | h <;> simp [h]
      · exact Or.inl rfl
    · simp at h5

/-- C2 witness: at the valid length-3 telegram `[0x03, 0x4A, 0x49]` the
no-reset alternative of the amended claim holds. -/
theorem telegram_state_after_parse_witness :
    (handleTelegram [0x03, 0x4A, 0x49]).setState = none ∨
      (handleTelegram [0x03, 0x4A, 0x49]).funcAnn = some FuncAnn.undefinedCmd :=
  (telegram_state_after_parse [0x03, 0x4A, 0x49]).2.2.2 (by decide) (by decide) (by decide)

/-- For a nonnegative argument, `pyTrunc` satisfies the floor
characterization: it is the unique integer within distance 1 below the
argument. -/
lemma pyTrunc_floor (q : ℚ) (h : 0 ≤ q) :
    (pyTrunc q : ℚ) ≤ q ∧ q < pyTrunc q + 1 := by
  have hq : pyTrunc q = ⌊q⌋ := by simp [pyTrunc, h]
  rw [hq]
  exact ⟨Int.floor_le q, Int.lt_floor_add_one q⟩

/-- C9 counterexample: with the default jitter option `10` µs and a
sample rate of 190000, `10 * 1e-6 * 190000 = 1.9`; the source's `int()`
yields 1 while rounding to the nearest integer yields 2. -/
theorem threshold_not_rounded :
    (mkThresholds 10 100 130 190 250 190000).jitter = 1
      ∧ round ((10 : ℚ) * (1 / 1000000) * 190000) = 2 := by
  constructor
  · show pyTrunc ((10 : ℚ) * (1 / 1000000) * 190000) = 1
    rw [show ((10 : ℚ) * (1 / 1000000) * 190000) = 19 / 10 by norm_num]
    have h : (0 : ℚ) ≤ 19 / 10 := by norm_num
    simp only [pyTrunc, if_pos h]
    rw [Int.floor_eq_iff]
    norm_num
  · rw [show ((10 : ℚ) * (1 / 1000000) * 190000) = 19 / 10 by norm_num, round_eq]
    rw [show ((19 : ℚ) / 10 + 1 / 2) = 12 / 5 by norm_num]
    rw [Int.floor_eq_iff]
    norm_num

/-- C9 amended: every threshold computed by `decode` is the truncation
(floor, for the nonnegative options and sample rates that occur) of
`microseconds * 1e-6 * sample_rate`, not its rounding: each threshold
`t` satisfies `t ≤ x < t + 1` for the exact product `x`. -/
theorem thresholds_truncate (j o1 o2 z1 z2 r : ℚ) (hj : 0 ≤ j) (h1 : 0 ≤ o1)
    (h2 : 0 ≤ o2) (h3 : 0 ≤ z1) (h4 : 0 ≤ z2) (hr : 0 ≤ r) :
    (((mkThresholds j o1 o2 z1 z2 r).jitter : ℚ) ≤ j * (1 / 1000000) * r
        ∧ j * (1 / 1000000) * r < (mkThresholds j o1 o2 z1 z2 r).jitter + 1)
      ∧ (((mkThresholds j o1 o2 z1 z2 r).oneMin : ℚ) ≤ o1 * (1 / 1000000) * r
        ∧ o1 * (1 / 1000000) * r < (mkThresholds j o1 o2 z1 z2 r).oneMin + 1)
      ∧ (((mkThresholds j o1 o2 z1 z2 r).oneMax : ℚ) ≤ o2 * (1 / 1000000) * r
        ∧ o2 * (1 / 1000000) * r < (mkThresholds j o1 o2 z1 z2 r).oneMax + 1)
      ∧ (((mkThresholds j o1 o2 z1 z2 r).zeroMin : ℚ) ≤ z1 * (1 / 1000000) * r
        ∧ z1 * (1 / 1000000) * r < (mkThresholds j o1 o2 z1 z2 r).zeroMin + 1)
      ∧ (((mkThresholds j o1 o2 z1 z2 r).zeroMax : ℚ) ≤ z2 * (1 / 1000000) * r
        ∧ z2 * (1 / 1000000) * r < (mkThresholds j o1 o2 z1 z2 r).zeroMax + 1) := by
  have hc : (0 : ℚ) ≤ 1 / 1000000 := by norm_num
  exact ⟨pyTrunc_floor _ (mul_nonneg (mul_nonneg hj hc) hr),
    pyTrunc_floor _ (mul_nonneg (mul_nonneg h1 hc) hr),
    pyTrunc_floor _ (mul_nonneg (mul_nonneg h2 hc) hr),
    pyTrunc_floor _ (mul_nonneg (mul_nonneg h3 hc) hr),
    pyTrunc_floor _ (mul_nonneg (mul_nonneg h4 hc) hr)⟩

/-- C9 witness: the truncation characterization instantiated at the
default options and a sample rate of 190000. -/
theorem thresholds_truncate_witness :
    (((mkThresholds 10 100 130 190 250 190000).jitter : ℚ) ≤ (10 : ℚ) * (1 / 1000000) * 190000
        ∧ (10 : ℚ) * (1 / 1000000) * 190000 <
            ((mkThresholds 10 100 130 190 250 190000).jitter : ℚ) + 1)
      ∧ (((mkThresholds 10 100 130 190 250 190000).oneMin : ℚ) ≤ (100 : ℚ) * (1 / 1000000) * 190000
        ∧ (100 : ℚ) * (1 / 1000000) * 190000 <
            ((mkThresholds 10 100 130 190 250 190000).oneMin : ℚ) + 1)
      ∧ (((mkThresholds 10 100 130 190 250 190000).oneMax : ℚ) ≤ (130 : ℚ) * (1 / 1000000) * 190000
        ∧ (130 : ℚ) * (1 / 1000000) * 190000 <
            ((mkThresholds 10 100 130 190 250 190000).oneMax : ℚ) + 1)
      ∧ (((mkThresholds 10 100 130 190 250 190000).zeroMin : ℚ) ≤ (190 : ℚ) * (1 / 1000000) * 190000
        ∧ (190 : ℚ) * (1 / 1000000) * 190000 <
            ((mkThresholds 10 100 130 190 250 190000).zeroMin : ℚ) + 1)
      ∧ (((mkThresholds 10 100 130 190 250 190000).zeroMax : ℚ) ≤ (250 : ℚ) * (1 / 1000000) * 190000
        ∧ (250 : ℚ) * (1 / 1000000) * 190000 <
            ((mkThresholds 10 100 130 190 250 190000).zeroMax : ℚ) + 1) :=
  thresholds_truncate 10 100 130 190 250 190000 (by decide) (by decide) (by decide)
    (by decide) (by decide) (by decide)

set_option maxRecDepth 10000 in
/-- For a byte, `b | 0x8F` depends on `b` only through its bits 4-6. -/
lemma or143_mask : ∀ b < 256, b ||| 143 = (b &&& 112) ||| 143 := by
  decide

set_option maxRecDepth 10000 in
/-- For a byte, the bits of `~b` selected by `0x70` depend on `b` only
through its bits 4-6. -/
lemma and112_mask : ∀ b < 256, 112 ^^^ (112 &&& b) = 112 ^^^ (112 &&& (b &&& 112)) := by
  decide

set_option maxRecDepth 10000 in
/-- A byte's bits 4-6 form a value `k <<< 4` with `k < 8`. -/
lemma mask112_shift : ∀ b < 256, b &&& 112 = ((b >>> 4) &&& 7) <<< 4 := by
  decide

/-- `pyNot` of a cast natural number is `Int.negSucc`. -/
lemma pyNot_coe (n : Nat) : pyNot ((n : Nat) : ℤ) = Int.negSucc n := by
  show -((n : ℤ)) - 1 = Int.negSucc n
  rw [Int.negSucc_eq]
  ring

/-- The source's address expression depends on its byte arguments only
through `a & 0x3F` and `b & 0x70`. -/
lemma accessoryAdr_mask (a b : Nat) (hb : b < 256) :
    accessoryAdr a b = accessoryAdr (a &&& 63) (b &&& 112) := by
  unfold accessoryAdr
  have h1 : pyAnd ((a : Nat) : ℤ) 63 = pyAnd (((a &&& 63 : Nat) : Nat) : ℤ) 63 := by
    show Int.ofNat (a &&& 63) = Int.ofNat (a &&& 63 &&& 63)
    rw [Nat.and_assoc, show (63 &&& 63 : Nat) = 63 from rfl]
  have h2 : pyOr ((b : Nat) : ℤ) 143 = pyOr (((b &&& 112 : Nat) : Nat) : ℤ) 143 := by
    show Int.ofNat (b ||| 143) = Int.ofNat ((b &&& 112) ||| 143)
    rw [or143_mask b hb]
  rw [h1, h2]

/-- The claimed address formula likewise depends only on `a & 0x3F` and
`b & 0x70`. -/
lemma adrClaimFormula_mask (a b : Nat) (hb : b < 256) :
    adrClaimFormula a b = adrClaimFormula (a &&& 63) (b &&& 112) := by
  unfold adrClaimFormula
  have h1 : pyAnd ((a : Nat) : ℤ) 63 = pyAnd (((a &&& 63 : Nat) : Nat) : ℤ) 63 := by
    show Int.ofNat (a &&& 63) = Int.ofNat (a &&& 63 &&& 63)
    rw [Nat.and_assoc, show (63 &&& 63 : Nat) = 63 from rfl]
  have h2 : pyAnd (pyNot ((b : Nat) : ℤ)) 112 =
      pyAnd (pyNot (((b &&& 112 : Nat) : Nat) : ℤ)) 112 := by
    rw [pyNot_coe b, pyNot_coe (b &&& 112)]
    show Int.ofNat (112 ^^^ (112 &&& b)) = Int.ofNat (112 ^^^ (112 &&& (b &&& 112)))
    rw [and112_mask b hb]
  rw [h1, h2]

set_option maxRecDepth 10000 in
/-- The two address expressions agree on the reduced domain of the
relevant bits. -/
lemma adr_eq_small : ∀ a < 64, ∀ k < 8,
    accessoryAdr a (k <<< 4) = adrClaimFormula a (k <<< 4) := by
  decide

/-- Over the byte range, the source's accessory-address expression
equals the claimed formula `((a & 0x3F) | ((~b & 0x70) << 1)) & 0xFF`. -/
lemma adr_formula_eq : ∀ a < 256, ∀ b < 256, accessoryAdr a b = adrClaimFormula a b := by
  intro a _ b hb
  rw [accessoryAdr_mask a b hb, adrClaimFormula_mask a b hb, mask112_shift b hb]
  exact adr_eq_small (a &&& 63) (Nat.lt_succ_of_le Nat.and_le_right)
    ((b >>> 4) &&& 7) (Nat.lt_succ_of_le Nat.and_le_right)

set_option maxRecDepth 10000 in
/-- A byte matching `a & 0xC0 == 0x80` has its top bit set, so the
short-address test `a & 0x80 == 0` of the length-3 grammar fails. -/
lemma adr_bit_top : ∀ a < 256, a &&& 0xC0 = 0x80 → ¬(a &&& 0x80 = 0) := by
  decide

set_option maxRecDepth 10000 in
/-- A byte matching `b & 0x89 == 0x01` has bit 7 clear, so neither
`b & 0xD0 == 0xC0` nor `b & 0xD0 == 0x20` can hold. -/
lemma adr_bit_d0 : ∀ b < 256, b &&& 0x89 = 0x01 →
    ¬(b &&& 0xD0 = 0xC0 ∨ b &&& 0xD0 = 0x20) := by
  decide

/-- C10: for every valid-checksum 3-byte telegram with
`bytes[0] & 0xC0 == 0x80` and `bytes[1] & 0x80 == 0x80`, and for every
valid-checksum 4-byte telegram with `bytes[0] & 0xC0 == 0x80` and
`bytes[1] & 0x89 == 0x01`, the address annotation equals
`((bytes[0] & 0x3F) | ((~bytes[1] & 0x70) << 1)) & 0xFF`. -/
theorem accessory_address_formula (a b c e : Nat) (ha : a < 256) (hb : b < 256) :
    (a ^^^ b = c → a &&& 0xC0 = 0x80 → b &&& 0x80 = 0x80 →
        (handleTelegram [a, b, c]).adrAnn = some (adrClaimFormula a b))
      ∧ (a ^^^ b ^^^ c = e → a &&& 0xC0 = 0x80 → b &&& 0x89 = 0x01 →
        (handleTelegram [a, b, c, e]).adrAnn = some (adrClaimFormula a b)) := by
  constructor
  · intro hcs h2 h3
    have hne := adr_bit_top a ha h2
    have heq := adr_formula_eq a ha b hb
    simp [handleTelegram, hcs, hne, h2, h3, heq]
  · intro hcs h2 h3
    have hd0 := adr_bit_d0 b hb h3
    have heq := adr_formula_eq a ha b hb
    have h2' : ¬(a &&& 0xC0 = 0xC0) := by rw [h2]; decide
    simp [handleTelegram, hcs, h2, h3, h2', hd0, heq]

/-- C10 witness: the address formula instantiated at the 3-byte
telegram `[0x81, 0x81, 0x00]` and the 4-byte telegram
`[0x81, 0x71, 0x05, 0xF5]`. -/
theorem accessory_address_formula_witness :
    (handleTelegram [0x81, 0x81, 0x00]).adrAnn = some (adrClaimFormula 0x81 0x81)
      ∧ (handleTelegram [0x81, 0x71, 0x05, 0xF5]).adrAnn = some (adrClaimFormula 0x81 0x71) :=
  ⟨(accessory_address_formula 0x81 0x81 0x00 0 (by decide) (by decide)).1
      (by decide) (by decide) (by decide),
   (accessory_address_formula 0x81 0x71 0x05 0xF5 (by decide) (by decide)).2
      (by decide) (by decide) (by decide)⟩
